import Mathlib

/-!
Verification of the serverless exam-question pipeline (reconciliation engine,
answer-validation pipeline, entry-point handlers) against its specification.

Strings are shallowly embedded as lists of characters so that the Python
string primitives used by the source (strip, upper, lower, startswith,
endswith, split) can be modelled by executable structural recursion.
-/

set_option maxHeartbeats 1000000

/-- Strings of the embedded program are lists of characters. -/
abbrev Str := List Char

/-- Backtick character, written via its code point. -/
def btk : Char := Char.ofNat 96

/-- Whitespace predicate of Python str.strip (space, tab, newline, CR, VT, FF). -/
def pyIsSpace (c : Char) : Bool :=
  c == ' ' || c == '\t' || c == '\n' || c == '\r' || c == '\x0b' || c == '\x0c'

/-- Python str.lstrip with no argument. -/
def lstrip (s : Str) : Str := s.dropWhile pyIsSpace

/-- Python str.rstrip with no argument. -/
def rstrip (s : Str) : Str := (s.reverse.dropWhile pyIsSpace).reverse

/-- Python str.strip with no argument. -/
def strip (s : Str) : Str := rstrip (lstrip s)

/-- Python str.upper restricted to the ASCII data of this pipeline. -/
def pyUpper (s : Str) : Str := s.map Char.toUpper

/-- Python str.lower restricted to the ASCII data of this pipeline. -/
def pyLower (s : Str) : Str := s.map Char.toLower

/-- Boolean prefix test on character lists. -/
def isPrefOf : Str → Str → Bool
  | [], _ => true
  | _ :: _, [] => false
  | a :: xs, b :: ys => a == b && isPrefOf xs ys

/-- Python str.startswith. -/
def pyStartsWith (s p : Str) : Bool := isPrefOf p s

/-- Python str.endswith. -/
def pyEndsWith (s p : Str) : Bool := isPrefOf p.reverse s.reverse

/-- Substring occurrence test: does `needle` occur in the argument. -/
def hasSub (needle : Str) : Str → Bool
  | [] => needle.isEmpty
  | c :: rest => isPrefOf needle (c :: rest) || hasSub needle rest

/-- Worker for Python str.split with a non-empty separator: leftmost-first,
non-overlapping occurrences.  The fuel argument bounds the recursion by the
input length; one character is consumed per step, so fuel equal to the input
length never runs out. -/
def splitGo (sep : Str) : Nat → Str → Str → List Str
  | _, [], acc => [acc.reverse]
  | 0, s, acc => [acc.reverse ++ s]
  | fuel + 1, c :: rest, acc =>
    if isPrefOf sep (c :: rest) then
      acc.reverse :: splitGo sep fuel (List.drop (sep.length - 1) rest) []
    else
      splitGo sep fuel rest (c :: acc)

/-- Python str.split with a separator string. -/
def splitOnStr (sep s : Str) : List Str :=
  if sep.length = 0 then [s] else splitGo sep s.length s []

/-- Membership test on a list of strings using boolean equality. -/
def memB (x : Str) (l : List Str) : Bool := l.any (fun y => y == x)

/-- Worker for first-occurrence deduplication (Python set membership
semantics over an iteration). -/
def dedupAux : List Str → List Str → List Str
  | [], _ => []
  | x :: xs, seen => if memB x seen then dedupAux xs seen else x :: dedupAux xs (x :: seen)

/-- First-occurrence deduplication of a key list; models the element set
iterated by the comparison loop (iteration order is irrelevant to every
stated property). -/
def dedupFirst (l : List Str) : List Str := dedupAux l []

/-- Python dict lookup for a dict built from an association list where later
entries overwrite earlier ones (dict.get, returning none when absent). -/
def pyGetDict {α : Type} : List (Str × α) → Str → Option α
  | [], _ => none
  | p :: rest, k =>
    match pyGetDict rest k with
    | some v => some v
    | none => if p.1 == k then some p.2 else none

/-! ## Reconciliation engine (src/ValidateItems/comparison_function.py) -/

/-- Record scanned from the source table: QuestionId plus the optional
comparison attribute Key. -/
structure SrcItem where
  questionId : Str
  key : Option Str
deriving Repr, DecidableEq

/-- Record scanned from the results table: QuestionId plus the optional
comparison attribute CorrectOption. -/
structure ResItem where
  questionId : Str
  correctOption : Option Str
deriving Repr, DecidableEq

/-- One entry of comparison_details produced by compare_tables. -/
structure Detail where
  questionid : Str
  matched : Bool
  table1_key : Str
  table2_correctoption : Str
  table2_all_options : Str
deriving Repr, DecidableEq

/-- Aggregate result dictionary returned by compare_tables.  The mismatches
count of the source equals mismatched_ids.length and is not duplicated. -/
structure CompareOut where
  matchesN : Nat
  mismatched_ids : List Str
  missing_from_table1 : List Str
  missing_from_table2 : List Str
  comparison_details : List Detail
deriving Repr, DecidableEq

/-- Entries of source_dict: QuestionId mapped to item.get(Key, empty).strip(). -/
def sourcePairs (items : List SrcItem) : List (Str × Str) :=
  items.map (fun it => (it.questionId, strip (it.key.getD [])))

/-- First entry of a comma-separated CorrectOption value, trimmed; mirrors
correct_options[0].strip() guarded by list truthiness. -/
def firstCommaEntry (s : Str) : Str :=
  match splitOnStr ((",").data) s with
  | [] => []
  | x :: _ => strip x

/-- Entries of results_dict: QuestionId mapped to the first comma-separated
entry of CorrectOption. -/
def resultsPairs (items : List ResItem) : List (Str × Str) :=
  items.map (fun it => (it.questionId, firstCommaEntry (it.correctOption.getD [])))

/-- Entries of all_options_dict: QuestionId mapped to the complete
CorrectOption string. -/
def allOptionsPairs (items : List ResItem) : List (Str × Str) :=
  items.map (fun it => (it.questionId, it.correctOption.getD []))

/-- Lookup function of source_dict. -/
def sdictOf (items : List SrcItem) : Str → Option Str :=
  pyGetDict (sourcePairs items)

/-- Lookup function of results_dict. -/
def rdictOf (items : List ResItem) : Str → Option Str :=
  pyGetDict (resultsPairs items)

/-- Lookup function of all_options_dict. -/
def adictOf (items : List ResItem) : Str → Option Str :=
  pyGetDict (allOptionsPairs items)

/-- QuestionId column of the source collection. -/
def srcKeys (items : List SrcItem) : List Str := items.map (fun it => it.questionId)

/-- QuestionId column of the results collection. -/
def resKeys (items : List ResItem) : List Str := items.map (fun it => it.questionId)

/-- Identifier set iterated by the comparison loop, as a duplicate-free list
(Python builds set(list(source_dict.keys()) + list(results_dict.keys()));
all stated properties are insensitive to the iteration order). -/
def allIds (src : List SrcItem) (res : List ResItem) : List Str :=
  dedupFirst (srcKeys src ++ resKeys res)

/-- Loop body of compare_tables: classify one QuestionId and extend the
accumulated output. -/
def classifyStep (s r a : Str → Option Str) (acc : CompareOut) (qid : Str) : CompareOut :=
  match s qid, r qid with
  | some sk, some rk =>
    let sk := pyUpper (strip sk)
    let rk := pyUpper (strip rk)
    let f := sk == rk
    { acc with
      matchesN := if f then acc.matchesN + 1 else acc.matchesN
      mismatched_ids := if f then acc.mismatched_ids else acc.mismatched_ids ++ [qid]
      comparison_details := acc.comparison_details ++
        [{ questionid := qid, matched := f, table1_key := sk, table2_correctoption := rk,
           table2_all_options := if f then [] else (a qid).getD [] }] }
  | none, _ =>
    { acc with missing_from_table1 := acc.missing_from_table1 ++ [qid] }
  | some _, none =>
    { acc with missing_from_table2 := acc.missing_from_table2 ++ [qid] }

/-- compare_tables with the two scanned collections made explicit (the scans
themselves are external collaborators). -/
def compare_tables (src : List SrcItem) (res : List ResItem) : CompareOut :=
  (allIds src res).foldl (classifyStep (sdictOf src) (rdictOf res) (adictOf res))
    { matchesN := 0, mismatched_ids := [], missing_from_table1 := [],
      missing_from_table2 := [], comparison_details := [] }

/-- Detail row produced for an identifier present in both dictionaries. -/
def detailFor (s r a : Str → Option Str) (q : Str) : Detail :=
  let sk := pyUpper (strip ((s q).getD []))
  let rk := pyUpper (strip ((r q).getD []))
  let f := sk == rk
  { questionid := q, matched := f, table1_key := sk, table2_correctoption := rk,
    table2_all_options := if f then [] else (a q).getD [] }

/-- Normalized comparison value drawn from a dictionary, as the loop computes
it: strip then uppercase. -/
def normOf (d : Str → Option Str) (q : Str) : Str := pyUpper (strip ((d q).getD []))

/-- Predicate: identifier present in both dictionaries. -/
def inBothB (s r : Str → Option Str) (q : Str) : Bool := (s q).isSome && (r q).isSome

/-- Predicate: identifier absent from the source dictionary. -/
def onlyResB (s : Str → Option Str) (q : Str) : Bool := (s q).isNone

/-- Predicate: identifier present in the source dictionary only. -/
def onlySrcB (s r : Str → Option Str) (q : Str) : Bool := (s q).isSome && (r q).isNone

/-- Identifiers of all ComparisonOutcome rows, grouped into the four spec
categories: matched, mismatched, missing_from_source (missing_from_table1),
missing_from_candidate (missing_from_table2). -/
def outcomeIds (out : CompareOut) : List Str :=
  (out.comparison_details.filter (fun d => d.matched)).map (fun d => d.questionid)
  ++ (out.comparison_details.filter (fun d => !d.matched)).map (fun d => d.questionid)
  ++ out.missing_from_table1 ++ out.missing_from_table2

/-! ## CSV export (save_to_s3 of src/ValidateItems/comparison_function.py) -/

/-- Rendering Python applies to a bool cell handed to csv.writer. -/
def pyBoolStr (b : Bool) : Str := if b then ("True").data else ("False").data

/-- Header row written by save_to_s3. -/
def csvHeader : List Str :=
  [("QuestionId").data, ("Matches").data, ("Table1_Key").data,
   ("Table2_CorrectOption").data, ("Table2_All_Options").data, ("Status").data]

/-- Row written for one comparison detail. -/
def detailRow (d : Detail) : List Str :=
  [d.questionid, pyBoolStr d.matched, d.table1_key, d.table2_correctoption,
   d.table2_all_options, if d.matched then ("Match").data else ("Mismatch").data]

/-- Synthetic row written for an identifier missing from table 1. -/
def missing1Row (q : Str) : List Str :=
  [q, ("N/A").data, ("MISSING").data, ("EXISTS").data, ("Missing from Table 1").data]

/-- Synthetic row written for an identifier missing from table 2. -/
def missing2Row (q : Str) : List Str :=
  [q, ("N/A").data, ("EXISTS").data, ("MISSING").data, ("Missing from Table 2").data]

/-- Cell grid of the CSV stream save_to_s3 uploads (the S3 put itself is an
external collaborator). -/
def save_to_s3_rows (out : CompareOut) : List (List Str) :=
  [csvHeader] ++ out.comparison_details.map detailRow
    ++ out.missing_from_table1.map missing1Row
    ++ out.missing_from_table2.map missing2Row


/-! ## JSON values and a parser modelling Python json.loads -/

/-- JSON values as exchanged by the validation pipeline.  Numbers are
restricted to integers: the pipeline only produces and consumes string
fields, and a fractional or exponent literal makes the model parser fail
where Python would build a float. -/
inductive JVal where
  | jstr : Str → JVal
  | jnum : Int → JVal
  | jbool : Bool → JVal
  | jnull : JVal
  | jarr : List JVal → JVal
  | jobj : List (Str × JVal) → JVal
deriving Repr

/-- Decoded escape character of a JSON string literal (the unicode escape is
not modelled; an input using it makes the parser fail). -/
def escChar (e : Char) : Option Char :=
  if e == '"' then some '"'
  else if e == '\\' then some '\\'
  else if e == '/' then some '/'
  else if e == 'n' then some '\n'
  else if e == 't' then some '\t'
  else if e == 'r' then some '\r'
  else if e == 'b' then some (Char.ofNat 8)
  else if e == 'f' then some (Char.ofNat 12)
  else none

/-- Parse the body of a JSON string literal after the opening quote,
returning the decoded characters and the remainder after the closing
quote. -/
def parseStrBody : Str → Option (Str × Str)
  | [] => none
  | c :: rest =>
    if c == '"' then some ([], rest)
    else if c == '\\' then
      match rest with
      | [] => none
      | e :: rest2 =>
        match escChar e with
        | none => none
        | some ec =>
          match parseStrBody rest2 with
          | none => none
          | some (tail, rem) => some (ec :: tail, rem)
    else if c.toNat < 32 then none
    else
      match parseStrBody rest with
      | none => none
      | some (tail, rem) => some (c :: tail, rem)

/-- Whitespace skipped by the JSON parser between tokens. -/
def jsonWs (c : Char) : Bool := c == ' ' || c == '\t' || c == '\n' || c == '\r'

/-- Drop leading JSON whitespace. -/
def skipWs (s : Str) : Str := s.dropWhile jsonWs

/-- Leading digit run of an integer literal. -/
def takeDigits : Str → (Str × Str)
  | [] => ([], [])
  | c :: rest =>
    if c.isDigit then
      match takeDigits rest with
      | (ds, rem) => (c :: ds, rem)
    else ([], c :: rest)

/-- Numeric value of a digit run. -/
def digitsVal (ds : Str) : Nat := ds.foldl (fun n c => n * 10 + (c.toNat - 48)) 0

/-- Parse an integer literal (floats are outside the model). -/
def parseNum (s : Str) : Option (JVal × Str) :=
  match s with
  | [] => none
  | c :: rest =>
    if c == '-' then
      match takeDigits rest with
      | ([], _) => none
      | (ds, rem) => some (JVal.jnum (-(digitsVal ds : Int)), rem)
    else if c.isDigit then
      match takeDigits (c :: rest) with
      | (ds, rem) => some (JVal.jnum (digitsVal ds), rem)
    else none

mutual

/-- Parse one JSON value; the fuel bounds the nesting recursion and is
always instantiated with more than the input length. -/
def parseVal : Nat → Str → Option (JVal × Str)
  | 0, _ => none
  | fuel + 1, s =>
    match skipWs s with
    | [] => none
    | c :: rest =>
      if c == '"' then
        match parseStrBody rest with
        | none => none
        | some (cs, rem) => some (JVal.jstr cs, rem)
      else if c == '\x7b' then
        match skipWs rest with
        | '\x7d' :: rem => some (JVal.jobj [], rem)
        | s2 =>
          match parseMembers fuel s2 with
          | none => none
          | some (ms, rem) => some (JVal.jobj ms, rem)
      else if c == '[' then
        match skipWs rest with
        | ']' :: rem => some (JVal.jarr [], rem)
        | s2 =>
          match parseElems fuel s2 with
          | none => none
          | some (xs, rem) => some (JVal.jarr xs, rem)
      else if c == 't' then
        if isPrefOf (("rue").data) rest then some (JVal.jbool true, rest.drop 3) else none
      else if c == 'f' then
        if isPrefOf (("alse").data) rest then some (JVal.jbool false, rest.drop 4) else none
      else if c == 'n' then
        if isPrefOf (("ull").data) rest then some (JVal.jnull, rest.drop 3) else none
      else parseNum (c :: rest)

/-- Parse the members of an object when at least one key is expected; the
input starts at the key with whitespace already skipped. -/
def parseMembers : Nat → Str → Option (List (Str × JVal) × Str)
  | 0, _ => none
  | fuel + 1, s =>
    match s with
    | '"' :: rest =>
      match parseStrBody rest with
      | none => none
      | some (key, rem) =>
        match skipWs rem with
        | ':' :: rem2 =>
          match parseVal fuel rem2 with
          | none => none
          | some (v, rem3) =>
            match skipWs rem3 with
            | ',' :: rem4 =>
              match parseMembers fuel (skipWs rem4) with
              | none => none
              | some (ms, rem5) => some ((key, v) :: ms, rem5)
            | '\x7d' :: rem4 => some ([(key, v)], rem4)
            | _ => none
        | _ => none
    | _ => none

/-- Parse the elements of an array when at least one element is expected. -/
def parseElems : Nat → Str → Option (List JVal × Str)
  | 0, _ => none
  | fuel + 1, s =>
    match parseVal fuel s with
    | none => none
    | some (v, rem) =>
      match skipWs rem with
      | ',' :: rem2 =>
        match parseElems fuel rem2 with
        | none => none
        | some (xs, rem3) => some (v :: xs, rem3)
      | ']' :: rem2 => some ([v], rem2)
      | _ => none

end

/-- Model of Python json.loads on the value shapes the pipeline exchanges. -/
def parseJson (s : Str) : Option JVal :=
  match parseVal (s.length + 1) s with
  | none => none
  | some (v, rem) => if (skipWs rem).isEmpty then some v else none

/-! ## Answer-validation pipeline (src/callBedrock/test_claude.py) -/

/-- Leading fence token stripped by the response cleaner. -/
def fenceJson : Str := ("```json").data

/-- Trailing fence token stripped by the response cleaner. -/
def fence : Str := ("```").data

/-- Response-cleaning step of validate_question: strip, drop a leading
fenced-code marker via split, drop a trailing marker via split, strip. -/
def cleanResponse (t : Str) : Str :=
  let t1 := strip t
  let t2 := if pyStartsWith t1 fenceJson then (splitOnStr fenceJson t1).getD 1 [] else t1
  let t3 := if pyEndsWith t2 fence then (splitOnStr fence t2).getD 0 [] else t2
  strip t3

/-- Question record scanned from the source table for the validation
pipeline. -/
structure Question where
  questionId : Option Str
  questionText : Option Str
  responseA : Option Str
  responseB : Option Str
  responseC : Option Str
  responseD : Option Str
  responseE : Option Str
  responseF : Option Str
deriving Repr, DecidableEq

/-- Option filter of validate_question: keep an answer whose text is
non-empty, not whitespace-only and not a case-insensitive nan sentinel. -/
def isActiveOption (v : Str) : Bool :=
  !v.isEmpty && !(strip v).isEmpty && !(pyLower v == ("nan").data)

/-- Ordered answers dictionary A..F of validate_question. -/
def answersList (q : Question) : List (Char × Str) :=
  [('A', q.responseA.getD []), ('B', q.responseB.getD []), ('C', q.responseC.getD []),
   ('D', q.responseD.getD []), ('E', q.responseE.getD []), ('F', q.responseF.getD [])]

/-- valid_answers of validate_question. -/
def validAnswers (q : Question) : List (Char × Str) :=
  (answersList q).filter (fun kv => isActiveOption kv.2)

/-- One rendered option line: letter, closing parenthesis, space, text. -/
def letterLine (kv : Char × Str) : Str := kv.1 :: (") ").data ++ kv.2

/-- answers_text: the option lines joined by newlines. -/
def answersText (q : Question) : Str :=
  List.intercalate (("\n").data) ((validAnswers q).map letterLine)

/-- Option letters in source order. -/
def optionLetters : List Char := ['A', 'B', 'C', 'D', 'E', 'F']

/-- Response field selected by letter. -/
def respOf (q : Question) (l : Char) : Str :=
  if l = 'A' then q.responseA.getD []
  else if l = 'B' then q.responseB.getD []
  else if l = 'C' then q.responseC.getD []
  else if l = 'D' then q.responseD.getD []
  else if l = 'E' then q.responseE.getD []
  else if l = 'F' then q.responseF.getD []
  else []

/-- Prompt text before the question. -/
def promptHead : Str :=
  ("As an AWS certification expert, analyze this question and provide the correct answer with explanation.\n\nQuestion: ").data

/-- Prompt text between the question and the options. -/
def promptMid : Str := ("\n\nOptions:\n").data

/-- Prompt text after the options, carrying the JSON format instruction. -/
def promptTail : Str :=
  ("\n\nRespond ONLY with a JSON object in this exact format, no other text:\n\x7b\n    \"correct_option\": \"<single letter A/B/C/D/E/F>\",\n    \"explanation\": \"<your detailed explanation>\",\n    \"confidence\": \"<HIGH/MEDIUM/LOW>\"\n\x7d\n\nThe response must be valid JSON. Do not include any text outside the JSON object.").data

/-- Prompt rendered by validate_question. -/
def promptFor (q : Question) : Str :=
  promptHead ++ q.questionText.getD [] ++ promptMid ++ answersText q ++ promptTail

/-- Result dictionary returned by validate_question: questionId and status
are set on every path; question, validation and error only on some paths. -/
structure VResult where
  questionId : Str
  question : Option Str
  validation : Option JVal
  status : Str
  error : Option Str
deriving Repr

/-- Required fields checked on the parsed model answer. -/
def requiredFields : List Str :=
  [("correct_option").data, ("explanation").data, ("confidence").data]

/-- Key membership in a parsed JSON object. -/
def objHas (ms : List (Str × JVal)) (f : Str) : Bool := ms.any (fun kv => kv.1 == f)

/-- Python membership test applied to an arbitrary parsed JSON value by the
required-fields check: key membership for a dict, substring for a string,
element equality for a list, a TypeError for the remaining values. -/
def pyInCheck (f : Str) : JVal → Except Str Bool
  | JVal.jobj ms => .ok (objHas ms f)
  | JVal.jstr s => .ok (hasSub f s)
  | JVal.jarr xs => .ok (xs.any (fun x => match x with | JVal.jstr t => t == f | _ => false))
  | _ => .error (("argument is not iterable").data)

/-- Conjunction of the required-field membership tests, stopping at the
first failure or first TypeError exactly like the generator inside all. -/
def allFieldsIn (v : JVal) : List Str → Except Str Bool
  | [] => .ok true
  | f :: fs =>
    match pyInCheck f v with
    | .error e => .error e
    | .ok false => .ok false
    | .ok true => allFieldsIn v fs

/-- Explanation recorded when the model output cannot be parsed as JSON (the
message detail of the Python json module exception is not modelled). -/
def parseFailText : Str := ("Failed to parse response: ").data

/-- Exception message of the missing-required-fields ValueError. -/
def missingFieldsText : Str := ("Missing required fields in response").data

/-- The status value of a successful validation. -/
def successStr : Str := ("success").data

/-- The status value of a failed validation. -/
def errorStr : Str := ("error").data

/-- validate_question with the model transport made explicit: invoke yields
the raw response text of a successful call, or the message of a raised
transport exception which the outermost handler converts into a bare error
result. -/
def validate_question (invoke : Str → Except Str Str) (q : Question) : VResult :=
  match invoke (promptFor q) with
  | .error e =>
    { questionId := q.questionId.getD [], question := none, validation := none,
      status := errorStr, error := some e }
  | .ok response_text =>
    match parseJson (cleanResponse response_text) with
    | none =>
      { questionId := q.questionId.getD [], question := some (q.questionText.getD []),
        validation := some (JVal.jobj
          [(("correct_option").data, JVal.jstr (("ERROR").data)),
           (("explanation").data, JVal.jstr parseFailText),
           (("confidence").data, JVal.jstr (("LOW").data))]),
        status := errorStr, error := none }
    | some claude_answer =>
      match allFieldsIn claude_answer requiredFields with
      | .error e =>
        { questionId := q.questionId.getD [], question := none, validation := none,
          status := errorStr, error := some e }
      | .ok false =>
        { questionId := q.questionId.getD [], question := none, validation := none,
          status := errorStr, error := some missingFieldsText }
      | .ok true =>
        { questionId := q.questionId.getD [], question := some (q.questionText.getD []),
          validation := some claude_answer, status := successStr, error := none }

/-! ## Result persistence (store_validation_result) -/

/-- Result dictionary as consumed by store_validation_result; every field
the function reads is optional so the .get defaults of the source stay
visible (questionId is read with bare indexing and raises when absent). -/
structure RDict where
  questionId : Option Str
  question : Option Str
  validation : Option JVal
  status : Option Str
deriving Repr

/-- View of a validate_question result as the dictionary store reads. -/
def toRDict (r : VResult) : RDict :=
  { questionId := some r.questionId, question := r.question,
    validation := r.validation, status := some r.status }

/-- Attribute names of the stored record. -/
def storedKeys : List Str :=
  [("QuestionId").data, ("CorrectOption").data, ("Explanation").data, ("Confidence").data,
   ("ValidationStatus").data, ("ProcessedAt").data, ("QuestionText").data]

/-- Lookup of a key in a parsed JSON object with a default (dict.get). -/
def objGetD (ms : List (Str × JVal)) (f : Str) (d : JVal) : JVal :=
  (pyGetDict ms f).getD d

/-- Item built by store_validation_result before the table write; the error
cases are a missing questionId (KeyError on bare indexing) and a validation
value that is not a dict (AttributeError on .get). -/
def mkStoredItem (now : Str) (r : RDict) : Except Str (List (Str × JVal)) :=
  match r.questionId with
  | none => .error (("KeyError: questionId").data)
  | some qid =>
    match r.validation.getD (JVal.jobj []) with
    | JVal.jobj ms =>
      .ok [(("QuestionId").data, JVal.jstr qid),
           (("CorrectOption").data, objGetD ms (("correct_option").data) (JVal.jstr (("UNKNOWN").data))),
           (("Explanation").data, objGetD ms (("explanation").data) (JVal.jstr [])),
           (("Confidence").data, objGetD ms (("confidence").data) (JVal.jstr (("LOW").data))),
           (("ValidationStatus").data, JVal.jstr (r.status.getD (("error").data))),
           (("ProcessedAt").data, JVal.jstr now),
           (("QuestionText").data, JVal.jstr (r.question.getD []))]
    | _ => .error (("AttributeError: value has no attribute get").data)

/-- store_validation_result with the table write made explicit: never
raises, reports success as a boolean. -/
def store_validation_result (put : List (Str × JVal) → Except Str Unit) (now : Str)
    (r : RDict) : Bool :=
  match mkStoredItem now r with
  | .error _ => false
  | .ok item =>
    match put item with
    | .ok _ => true
    | .error _ => false

/-- CorrectOption attribute carried by the record a validation result is
persisted as (none when store_validation_result writes nothing). -/
def storedCorrectOption (now : Str) (r : VResult) : Option JVal :=
  match mkStoredItem now (toRDict r) with
  | .error _ => none
  | .ok item => pyGetDict item (("CorrectOption").data)

/-- Storage bookkeeping entry appended per question by the batch loop. -/
structure StorageEntry where
  questionId : Str
  stored : Bool
deriving Repr, DecidableEq

/-- Batch loop of the validation lambda handler: validate every question,
store each result immediately, collect both result lists. -/
def processQuestions (invoke : Str → Except Str Str)
    (put : List (Str × JVal) → Except Str Unit) (now : Str)
    (questions : List Question) : List VResult × List StorageEntry :=
  questions.foldl
    (fun acc q =>
      let r := validate_question invoke q
      let ok := store_validation_result put now (toRDict r)
      (acc.1 ++ [r], acc.2 ++ [{ questionId := r.questionId, stored := ok }]))
    ([], [])

/-! ## Entry-point handlers -/

/-- Python exception classes distinguished by the except clauses. -/
inductive PyErr where
  | valueError : Str → PyErr
  | other : Str → PyErr
deriving Repr, DecidableEq

/-- Environment configuration of the comparison lambda. -/
structure Config3 where
  sourceTable : Option Str
  resultsTable : Option Str
  outputBucket : Option Str
deriving Repr, DecidableEq

/-- Python truthiness of an optional environment string. -/
def truthy (o : Option Str) : Bool :=
  match o with
  | none => false
  | some s => !s.isEmpty

/-- Response record of the comparison lambda handler. -/
structure HResponse where
  statusCode : Nat
  message : Str
  error : Option Str
  results : Option CompareOut
  outputFile : Option Str
deriving Repr

/-- Comparison lambda handler with the two table scans and the S3 upload
made explicit; a ValueError from the body is answered with the 400
configuration response, any other exception with the 500 response. -/
def comparison_handler (cfg : Config3)
    (runScan : Unit → Except PyErr (List SrcItem × List ResItem))
    (runSave : CompareOut → Except PyErr Str) : HResponse :=
  if !(truthy cfg.sourceTable && truthy cfg.resultsTable && truthy cfg.outputBucket) then
    { statusCode := 400, message := ("Configuration error").data,
      error := some (("Required environment variables are not set").data),
      results := none, outputFile := none }
  else
    match runScan () with
    | .error (.valueError m) =>
      { statusCode := 400, message := ("Configuration error").data, error := some m,
        results := none, outputFile := none }
    | .error (.other m) =>
      { statusCode := 500, message := ("Internal server error").data, error := some m,
        results := none, outputFile := none }
    | .ok (src, res) =>
      match runSave (compare_tables src res) with
      | .error (.valueError m) =>
        { statusCode := 400, message := ("Configuration error").data, error := some m,
          results := none, outputFile := none }
      | .error (.other m) =>
        { statusCode := 500, message := ("Internal server error").data, error := some m,
          results := none, outputFile := none }
      | .ok file =>
        { statusCode := 200, message := ("Comparison completed successfully").data,
          error := none, results := some (compare_tables src res), outputFile := some file }

/-- Response record of the Bedrock-call lambda handler. -/
structure BResponse where
  statusCode : Nat
  message : Str
  response : Str
  error : Option Str
deriving Repr, DecidableEq

/-- Bedrock-call lambda handler: a missing prompt raises the ValueError that
is answered with 400; get_claude_response swallows every transport error
into a 500 status carried through the body. -/
def call_bedrock_handler (promptField : Option Str)
    (runClaude : Str → Except Str Str) : BResponse :=
  match promptField with
  | none =>
    { statusCode := 400, message := ("Invalid input").data, response := [],
      error := some (("No prompt provided in event").data) }
  | some prompt =>
    match runClaude prompt with
    | .ok text =>
      { statusCode := 200, message := ("Successfully processed prompt").data,
        response := text, error := none }
    | .error e =>
      { statusCode := 500, message := ("Successfully processed prompt").data,
        response := [], error := some e }

/-- Response record of the CSV-ingestion lambda handler. -/
structure SResponse where
  statusCode : Nat
  message : Str
  error : Option Str
deriving Repr, DecidableEq

/-- Module-level configuration check of the CSV-ingestion lambda: it raises
during import, before any handler can run or answer. -/
def s3_module_check (s3Bucket dynamoTable : Option Str) : Except Str Unit :=
  if truthy s3Bucket = false then
    .error (("S3_BUCKET_NAME environment variable is not set").data)
  else if truthy dynamoTable = false then
    .error (("DYNAMODB_TABLE_NAME environment variable is not set").data)
  else .ok ()

/-- CSV-ingestion lambda handler with the Records-key extraction of the
event and the read-and-insert pipeline made explicit: a missing Records
entry raises a KeyError that only the generic except clause answers. -/
def s3_csv_handler (recordsKey : Option Str)
    (runPipeline : Str → Except Str (Nat × Nat)) : SResponse :=
  match recordsKey with
  | none =>
    { statusCode := 500, message := ("Error processing file").data,
      error := some (("KeyError: Records").data) }
  | some key =>
    match runPipeline key with
    | .error e =>
      { statusCode := 500, message := ("Error processing file").data, error := some e }
    | .ok _ =>
      { statusCode := 200, message := ("File processing completed").data, error := none }

/-! ## Concrete inputs used by the closed evaluations -/

/-- Sample question record with a nan sentinel in ResponseB. -/
def exampleQuestion : Question :=
  { questionId := some (("q1").data),
    questionText := some (("Which service stores objects?").data),
    responseA := some (("S3").data), responseB := some (("nan").data),
    responseC := some (("EC2").data), responseD := some (("Lambda").data),
    responseE := none, responseF := none }

/-- The fenced model output of the specification example. -/
def exampleFencedRaw : Str :=
  ("```json\n\x7b\"correct_option\":\"A\",\"explanation\":\"x\",\"confidence\":\"HIGH\"\x7d\n```").data

/-- A fenced output whose JSON payload itself contains a fence token. -/
def fencePayloadRaw : Str :=
  ("```json\n\x7b\"correct_option\":\"A\",\"explanation\":\"x```y\",\"confidence\":\"HIGH\"\x7d\n```").data

/-- Non-JSON model output. -/
def proseRaw : Str := ("I think the answer is A").data

/-- A JSON object output missing two of the required fields. -/
def missingFieldsRaw : Str := ("\x7b\"correct_option\":\"A\"\x7d").data

/-- Payload of the specification example between the fence tokens. -/
def fencedPayloadMid : Str :=
  ("\n\x7b\"correct_option\":\"A\",\"explanation\":\"x\",\"confidence\":\"HIGH\"\x7d\n").data

/-- Parsed object of the specification example. -/
def fencedPayloadObj : List (Str × JVal) :=
  [((("correct_option").data), JVal.jstr (("A").data)),
   ((("explanation").data), JVal.jstr (("x").data)),
   ((("confidence").data), JVal.jstr (("HIGH").data))]

/-- Payload between fence tokens whose explanation itself contains a fence
token. -/
def fencePayloadMidBad : Str :=
  ("\n\x7b\"correct_option\":\"A\",\"explanation\":\"x```y\",\"confidence\":\"HIGH\"\x7d\n").data

/-- Result dictionary with no validation payload and no status, as consumed
by the persistence layer in the defaulting evaluations. -/
def rdictBare : RDict :=
  { questionId := some (("q1").data), question := none, validation := none, status := none }

/-- Table write that always fails. -/
def putFail : List (Str × JVal) → Except Str Unit := fun _ => .error (("boom").data)

/-- Scan oracle failing with a non-ValueError exception. -/
def scanBoom : Unit → Except PyErr (List SrcItem × List ResItem) :=
  fun _ => .error (.other (("boom").data))

/-- Scan oracle returning two empty collections. -/
def scanEmpty : Unit → Except PyErr (List SrcItem × List ResItem) := fun _ => .ok ([], [])

/-- Save oracle returning a file name. -/
def saveOk : CompareOut → Except PyErr Str := fun _ => .ok (("comparison.csv").data)

/-- Configuration with every variable absent. -/
def cfgNone : Config3 := { sourceTable := none, resultsTable := none, outputBucket := none }

/-- Configuration with every variable set. -/
def cfgFull : Config3 :=
  { sourceTable := some (("s").data), resultsTable := some (("r").data),
    outputBucket := some (("o").data) }

/-! ## Lemmas about the embedded primitives -/

theorem memB_iff (x : Str) (l : List Str) : memB x l = true ↔ x ∈ l := by
  simp only [memB, List.any_eq_true, beq_iff_eq]
  constructor
  · rintro ⟨y, hy, rfl⟩; exact hy
  · intro h; exact ⟨x, h, rfl⟩

theorem mem_dedupAux (l : List Str) : ∀ (seen : List Str) (x : Str),
    x ∈ dedupAux l seen ↔ x ∈ l ∧ x ∉ seen := by
  induction l with
  | nil => intro seen x; simp [dedupAux]
  | cons a l ih =>
    intro seen x
    by_cases h : memB a seen = true
    · rw [dedupAux, if_pos h, ih]
      have ha : a ∈ seen := (memB_iff a seen).mp h
      constructor
      · rintro ⟨hx, hn⟩; exact ⟨List.mem_cons_of_mem _ hx, hn⟩
      · rintro ⟨hx, hn⟩
        rcases List.mem_cons.mp hx with he | hx
        · exact absurd (he ▸ ha) hn
        · exact ⟨hx, hn⟩
    · rw [dedupAux, if_neg h]
      have ha : a ∉ seen := fun hm => h ((memB_iff a seen).mpr hm)
      constructor
      · intro hx
        rcases List.mem_cons.mp hx with he | hx
        · subst he; exact ⟨List.mem_cons_self _ _, ha⟩
        · obtain ⟨h1, h2⟩ := (ih (a :: seen) x).mp hx
          exact ⟨List.mem_cons_of_mem _ h1, fun hs => h2 (List.mem_cons_of_mem _ hs)⟩
      · rintro ⟨hx, hn⟩
        rcases List.mem_cons.mp hx with he | hx
        · subst he; exact List.mem_cons_self _ _
        · by_cases hxa : x = a
          · subst hxa; exact List.mem_cons_self _ _
          · refine List.mem_cons_of_mem _ ((ih (a :: seen) x).mpr ⟨hx, fun hs => ?_⟩)
            rcases List.mem_cons.mp hs with he | hs
            · exact hxa he
            · exact hn hs

theorem nodup_dedupAux (l : List Str) : ∀ seen : List Str, (dedupAux l seen).Nodup := by
  induction l with
  | nil => intro seen; simp [dedupAux]
  | cons a l ih =>
    intro seen
    by_cases h : memB a seen = true
    · rw [dedupAux, if_pos h]; exact ih seen
    · rw [dedupAux, if_neg h]
      rw [List.nodup_cons]
      refine ⟨fun hmem => ?_, ih (a :: seen)⟩
      exact ((mem_dedupAux l (a :: seen) a).mp hmem).2 (List.mem_cons_self a seen)

theorem mem_dedupFirst (l : List Str) (x : Str) : x ∈ dedupFirst l ↔ x ∈ l := by
  rw [dedupFirst, mem_dedupAux]
  simp

theorem nodup_dedupFirst (l : List Str) : (dedupFirst l).Nodup := nodup_dedupAux l []

theorem pyGetDict_isSome {α : Type} (ps : List (Str × α)) (k : Str) :
    (pyGetDict ps k).isSome = true ↔ k ∈ ps.map (fun p => p.1) := by
  induction ps with
  | nil => simp [pyGetDict]
  | cons p ps ih =>
    rw [pyGetDict, List.map_cons, List.mem_cons]
    cases h : pyGetDict ps k with
    | some v =>
      have hk : k ∈ ps.map (fun p => p.1) := ih.mp (by rw [h]; rfl)
      exact iff_of_true rfl (Or.inr hk)
    | none =>
      rw [h] at ih
      by_cases he : (p.1 == k) = true
      · rw [if_pos he]
        exact iff_of_true rfl (Or.inl (eq_of_beq he).symm)
      · rw [if_neg he]
        constructor
        · intro hfalse; exact absurd hfalse (by simp)
        · rintro (rfl | hm)
          · exact absurd (beq_self_eq_true _) he
          · exact absurd (ih.mpr hm) (by simp)

theorem sdictOf_isSome (src : List SrcItem) (q : Str) :
    (sdictOf src q).isSome = true ↔ q ∈ srcKeys src := by
  have h := pyGetDict_isSome (sourcePairs src) q
  simpa [sourcePairs, srcKeys, List.map_map, Function.comp] using h

theorem rdictOf_isSome (res : List ResItem) (q : Str) :
    (rdictOf res q).isSome = true ↔ q ∈ resKeys res := by
  have h := pyGetDict_isSome (resultsPairs res) q
  simpa [resultsPairs, resKeys, List.map_map, Function.comp] using h

theorem mem_allIds (src : List SrcItem) (res : List ResItem) (q : Str) :
    q ∈ allIds src res ↔ q ∈ srcKeys src ∨ q ∈ resKeys res := by
  rw [allIds, mem_dedupFirst, List.mem_append]

theorem nodup_allIds (src : List SrcItem) (res : List ResItem) :
    (allIds src res).Nodup := nodup_dedupFirst _

theorem foldl_classify_spec (s r a : Str → Option Str) (l : List Str) :
    ∀ acc : CompareOut,
      ((l.foldl (classifyStep s r a) acc).comparison_details
          = acc.comparison_details ++ (l.filter (inBothB s r)).map (detailFor s r a))
      ∧ ((l.foldl (classifyStep s r a) acc).missing_from_table1
          = acc.missing_from_table1 ++ l.filter (onlyResB s))
      ∧ ((l.foldl (classifyStep s r a) acc).missing_from_table2
          = acc.missing_from_table2 ++ l.filter (onlySrcB s r))
      ∧ ((l.foldl (classifyStep s r a) acc).mismatched_ids
          = acc.mismatched_ids ++ l.filter (fun q => inBothB s r q && !(normOf s q == normOf r q)))
      ∧ ((l.foldl (classifyStep s r a) acc).matchesN
          = acc.matchesN + (l.filter (fun q => inBothB s r q && (normOf s q == normOf r q))).length) := by
  induction l with
  | nil => intro acc; simp
  | cons q l ih =>
    intro acc
    obtain ⟨ih1, ih2, ih3, ih4, ih5⟩ := ih (classifyStep s r a acc q)
    simp only [List.foldl_cons]
    cases hs : s q with
    | none =>
      have hin : inBothB s r q = false := by simp [inBothB, hs]
      have hor : onlyResB s q = true := by simp [onlyResB, hs]
      have hos : onlySrcB s r q = false := by simp [onlySrcB, hs]
      simp only [classifyStep, hs] at ih1 ih2 ih3 ih4 ih5 ⊢
      refine ⟨?_, ?_, ?_, ?_, ?_⟩ <;>
        simp [ih1, ih2, ih3, ih4, ih5, hin, hor, hos, List.filter_cons]
    | some sk => cases hr : r q with
      | none =>
        have hin : inBothB s r q = false := by simp [inBothB, hs, hr]
        have hor : onlyResB s q = false := by simp [onlyResB, hs]
        have hos : onlySrcB s r q = true := by simp [onlySrcB, hs, hr]
        simp only [classifyStep, hs, hr] at ih1 ih2 ih3 ih4 ih5 ⊢
        refine ⟨?_, ?_, ?_, ?_, ?_⟩ <;>
          simp [ih1, ih2, ih3, ih4, ih5, hin, hor, hos, List.filter_cons]
      | some rk =>
        have hin : inBothB s r q = true := by simp [inBothB, hs, hr]
        have hor : onlyResB s q = false := by simp [onlyResB, hs]
        have hos : onlySrcB s r q = false := by simp [onlySrcB, hs, hr]
        have hnS : normOf s q = pyUpper (strip sk) := by simp [normOf, hs]
        have hnR : normOf r q = pyUpper (strip rk) := by simp [normOf, hr]
        have hdet : detailFor s r a q =
            { questionid := q, matched := pyUpper (strip sk) == pyUpper (strip rk),
              table1_key := pyUpper (strip sk), table2_correctoption := pyUpper (strip rk),
              table2_all_options :=
                if pyUpper (strip sk) == pyUpper (strip rk) then [] else (a q).getD [] } := by
          simp [detailFor, hs, hr]
        simp only [classifyStep, hs, hr] at ih1 ih2 ih3 ih4 ih5 ⊢
        by_cases hf : (pyUpper (strip sk) == pyUpper (strip rk)) = true
        · simp only [hf, if_true, eq_self_iff_true] at ih1 ih2 ih3 ih4 ih5 ⊢
          refine ⟨?_, ?_, ?_, ?_, ?_⟩ <;>
            simp [ih1, ih2, ih3, ih4, ih5, hin, hor, hos, hnS, hnR, hdet, hf,
              List.filter_cons, Nat.add_assoc, Nat.add_comm, Nat.add_left_comm]
        · have hf2 : (pyUpper (strip sk) == pyUpper (strip rk)) = false :=
            Bool.eq_false_iff.mpr hf
          simp only [hf2, Bool.false_eq_true, if_false] at ih1 ih2 ih3 ih4 ih5 ⊢
          refine ⟨?_, ?_, ?_, ?_, ?_⟩ <;>
            simp [ih1, ih2, ih3, ih4, ih5, hin, hor, hos, hnS, hnR, hdet, hf2,
              List.filter_cons]

theorem matched_detail_ids (s r a : Str → Option Str) (l : List Str) :
    (((l.filter (inBothB s r)).map (detailFor s r a)).filter (fun d => d.matched)).map
        (fun d => d.questionid)
      = l.filter (fun q => inBothB s r q && (normOf s q == normOf r q)) := by
  induction l with
  | nil => rfl
  | cons q l ih =>
    have hm : (detailFor s r a q).matched = (normOf s q == normOf r q) := rfl
    have hq : (detailFor s r a q).questionid = q := rfl
    by_cases hin : inBothB s r q = true
    · by_cases hf : (normOf s q == normOf r q) = true
      · simp [List.filter_cons, hin, hf, hm, hq, ih]
      · have hf' : (normOf s q == normOf r q) = false := Bool.eq_false_iff.mpr hf
        simp [List.filter_cons, hin, hf', hm, hq, ih]
    · have hin' : inBothB s r q = false := Bool.eq_false_iff.mpr hin
      simp [List.filter_cons, hin', ih]

theorem mismatched_detail_ids (s r a : Str → Option Str) (l : List Str) :
    (((l.filter (inBothB s r)).map (detailFor s r a)).filter (fun d => !d.matched)).map
        (fun d => d.questionid)
      = l.filter (fun q => inBothB s r q && !(normOf s q == normOf r q)) := by
  induction l with
  | nil => rfl
  | cons q l ih =>
    have hm : (detailFor s r a q).matched = (normOf s q == normOf r q) := rfl
    have hq : (detailFor s r a q).questionid = q := rfl
    by_cases hin : inBothB s r q = true
    · by_cases hf : (normOf s q == normOf r q) = true
      · simp [List.filter_cons, hin, hf, hm, hq, ih]
      · have hf' : (normOf s q == normOf r q) = false := Bool.eq_false_iff.mpr hf
        simp [List.filter_cons, hin, hf', hm, hq, ih]
    · have hin' : inBothB s r q = false := Bool.eq_false_iff.mpr hin
      simp [List.filter_cons, hin', ih]

theorem nodup_filter4 (l : List Str) (hl : l.Nodup) (p1 p2 p3 p4 : Str → Bool)
    (h12 : ∀ x, ¬(p1 x = true ∧ p2 x = true))
    (h13 : ∀ x, ¬(p1 x = true ∧ p3 x = true))
    (h14 : ∀ x, ¬(p1 x = true ∧ p4 x = true))
    (h23 : ∀ x, ¬(p2 x = true ∧ p3 x = true))
    (h24 : ∀ x, ¬(p2 x = true ∧ p4 x = true))
    (h34 : ∀ x, ¬(p3 x = true ∧ p4 x = true)) :
    (l.filter p1 ++ l.filter p2 ++ l.filter p3 ++ l.filter p4).Nodup := by
  have n1 : (l.filter p1).Nodup := hl.filter p1
  have n2 : (l.filter p2).Nodup := hl.filter p2
  have n3 : (l.filter p3).Nodup := hl.filter p3
  have n4 : (l.filter p4).Nodup := hl.filter p4
  have d12 : (l.filter p1).Disjoint (l.filter p2) := by
    intro x hx1 hx2
    exact h12 _ ⟨List.of_mem_filter hx1, List.of_mem_filter hx2⟩
  refine List.Nodup.append (List.Nodup.append (List.Nodup.append n1 n2 d12) n3 ?_) n4 ?_
  · intro x hx h3x
    rcases List.mem_append.mp hx with h | h
    · exact h13 _ ⟨List.of_mem_filter h, List.of_mem_filter h3x⟩
    · exact h23 _ ⟨List.of_mem_filter h, List.of_mem_filter h3x⟩
  · intro x hx h4x
    rcases List.mem_append.mp hx with hx | h
    · rcases List.mem_append.mp hx with h | h
      · exact h14 _ ⟨List.of_mem_filter h, List.of_mem_filter h4x⟩
      · exact h24 _ ⟨List.of_mem_filter h, List.of_mem_filter h4x⟩
    · exact h34 _ ⟨List.of_mem_filter h, List.of_mem_filter h4x⟩

/-- C1: over inputs in which every record carries a QuestionId, the
identifiers across all ComparisonOutcome rows of compare_tables — matched
and mismatched comparison_details rows plus missing_from_table1 and
missing_from_table2 — are exactly the union of the identifiers of the two
input collections, and no identifier occurs in more than one of the four
categories. -/
theorem compare_tables_partitions_ids (src : List SrcItem) (res : List ResItem) :
    (∀ q, q ∈ outcomeIds (compare_tables src res) ↔ q ∈ srcKeys src ∨ q ∈ resKeys res)
    ∧ (outcomeIds (compare_tables src res)).Nodup := by
  obtain ⟨h1, h2, h3, h4, h5⟩ :=
    foldl_classify_spec (sdictOf src) (rdictOf res) (adictOf res) (allIds src res)
      { matchesN := 0, mismatched_ids := [], missing_from_table1 := [],
        missing_from_table2 := [], comparison_details := [] }
  have hct : compare_tables src res
      = (allIds src res).foldl
          (classifyStep (sdictOf src) (rdictOf res) (adictOf res))
          { matchesN := 0, mismatched_ids := [], missing_from_table1 := [],
            missing_from_table2 := [], comparison_details := [] } := rfl
  have hout : outcomeIds (compare_tables src res)
      = (allIds src res).filter (fun q => inBothB (sdictOf src) (rdictOf res) q
            && (normOf (sdictOf src) q == normOf (rdictOf res) q))
        ++ (allIds src res).filter (fun q => inBothB (sdictOf src) (rdictOf res) q
            && !(normOf (sdictOf src) q == normOf (rdictOf res) q))
        ++ (allIds src res).filter (onlyResB (sdictOf src))
        ++ (allIds src res).filter (onlySrcB (sdictOf src) (rdictOf res)) := by
    rw [outcomeIds, hct, h1, h2, h3]
    simp only [List.nil_append]
    rw [matched_detail_ids, mismatched_detail_ids]
  constructor
  · intro q
    rw [hout]
    simp only [List.mem_append, List.mem_filter]
    constructor
    · intro h
      have hq : q ∈ allIds src res := by
        rcases h with ((h | h) | h) | h <;> exact h.1
      exact (mem_allIds src res q).mp hq
    · intro h
      have hq : q ∈ allIds src res := (mem_allIds src res q).mpr h
      cases hsq : sdictOf src q with
      | none =>
        exact Or.inl (Or.inr ⟨hq, by simp [onlyResB, hsq]⟩)
      | some sk =>
        cases hrq : rdictOf res q with
        | none => exact Or.inr ⟨hq, by simp [onlySrcB, hsq, hrq]⟩
        | some rk =>
          by_cases hf : (normOf (sdictOf src) q == normOf (rdictOf res) q) = true
          · exact Or.inl (Or.inl (Or.inl ⟨hq, by simp [inBothB, hsq, hrq, hf]⟩))
          · have hf2 := Bool.eq_false_iff.mpr hf
            exact Or.inl (Or.inl (Or.inr ⟨hq, by simp [inBothB, hsq, hrq, hf2]⟩))
  · rw [hout]
    refine nodup_filter4 _ (nodup_allIds src res) _ _ _ _ ?_ ?_ ?_ ?_ ?_ ?_ <;>
      · intro x hx
        obtain ⟨ha, hb⟩ := hx
        rcases hsx : sdictOf src x with _ | sk <;> rcases hrx : rdictOf res x with _ | rk <;>
          simp_all [inBothB, onlyResB, onlySrcB]

theorem dropWhile_idem (p : Char → Bool) (s : Str) :
    List.dropWhile p (List.dropWhile p s) = List.dropWhile p s := by
  induction s with
  | nil => rfl
  | cons c s ih =>
    by_cases hc : p c = true
    · rw [List.dropWhile_cons, if_pos hc, ih]
    · rw [List.dropWhile_cons, if_neg hc, List.dropWhile_cons, if_neg hc]

theorem lstrip_idem (s : Str) : lstrip (lstrip s) = lstrip s := dropWhile_idem pyIsSpace s

theorem dropWhile_append_last (p : Char → Bool) (c : Char) (hc : p c = false) (a : Str) :
    List.dropWhile p (a ++ [c]) = List.dropWhile p a ++ [c] := by
  induction a with
  | nil => simp [List.dropWhile_cons, hc]
  | cons x a ih =>
    by_cases hx : p x = true
    · rw [List.cons_append, List.dropWhile_cons, if_pos hx, ih, List.dropWhile_cons, if_pos hx]
    · rw [List.cons_append, List.dropWhile_cons, if_neg hx, List.dropWhile_cons, if_neg hx,
        List.cons_append]

theorem length_dropWhile_le (p : Char → Bool) (s : Str) :
    (List.dropWhile p s).length ≤ s.length := by
  induction s with
  | nil => simp
  | cons c s ih =>
    by_cases hc : p c = true
    · rw [List.dropWhile_cons, if_pos hc]
      exact le_trans ih (by simp)
    · rw [List.dropWhile_cons, if_neg hc]

theorem rstrip_idem (s : Str) : rstrip (rstrip s) = rstrip s := by
  unfold rstrip
  rw [List.reverse_reverse, dropWhile_idem]

theorem lstrip_of_rstrip (s : Str) (h : lstrip s = s) : lstrip (rstrip s) = rstrip s := by
  cases s with
  | nil => rfl
  | cons c v =>
    have hc : pyIsSpace c = false := by
      by_contra hcc
      have hc2 : pyIsSpace c = true := by
        revert hcc; cases pyIsSpace c <;> simp
      rw [lstrip, List.dropWhile_cons, if_pos hc2] at h
      have hlen := congrArg List.length h
      have hle := length_dropWhile_le pyIsSpace v
      simp at hlen
      omega
    have hrev : (c :: v).reverse = v.reverse ++ [c] := by simp
    rw [rstrip, hrev, dropWhile_append_last pyIsSpace c hc, List.reverse_append]
    simp only [List.reverse_cons, List.reverse_nil, List.nil_append, List.singleton_append]
    rw [lstrip, List.dropWhile_cons, if_neg (by simp [hc])]

theorem strip_idem (s : Str) : strip (strip s) = strip s := by
  show rstrip (lstrip (rstrip (lstrip s))) = rstrip (lstrip s)
  rw [lstrip_of_rstrip (lstrip s) (lstrip_idem s), rstrip_idem]

theorem strip_firstCommaEntry (s : Str) : strip (firstCommaEntry s) = firstCommaEntry s := by
  cases h : splitOnStr ((",").data) s with
  | nil => simp [firstCommaEntry, h]; rfl
  | cons x xs => simp [firstCommaEntry, h, strip_idem]

/-- C5: compare_tables uses only the first, trimmed entry of a
comma-separated candidate value as the comparison value while the raw-options
diagnostic retains the complete original string (attached only on mismatch);
in particular candidate B,C against source b yields a matched outcome whose
raw-options field is empty. -/
theorem compare_tables_first_entry_semantics :
    (∀ (q k s : Str),
      (compare_tables [⟨q, some k⟩] [⟨q, some s⟩]).comparison_details
        = [{ questionid := q,
             matched := pyUpper (strip k) == pyUpper (firstCommaEntry s),
             table1_key := pyUpper (strip k),
             table2_correctoption := pyUpper (firstCommaEntry s),
             table2_all_options :=
               if pyUpper (strip k) == pyUpper (firstCommaEntry s) then [] else s }])
    ∧ (compare_tables [⟨("q1").data, some (("b").data)⟩]
          [⟨("q1").data, some (("B,C").data)⟩]).comparison_details
        = [{ questionid := ("q1").data, matched := true, table1_key := ("B").data,
             table2_correctoption := ("B").data, table2_all_options := [] }]
    ∧ (compare_tables [⟨("q1").data, some (("b").data)⟩]
          [⟨("q1").data, some (("B,C").data)⟩]).matchesN = 1
    ∧ (compare_tables [⟨("q1").data, some (("b").data)⟩]
          [⟨("q1").data, some (("B,C").data)⟩]).mismatched_ids = [] := by
  refine ⟨?_, by decide, by decide, by decide⟩
  intro q k s
  have hq : (q == q) = true := beq_self_eq_true q
  have hsd : sdictOf [⟨q, some k⟩] q = some (strip k) := by
    simp [sdictOf, sourcePairs, pyGetDict]
  have hrd : rdictOf [⟨q, some s⟩] q = some (firstCommaEntry s) := by
    simp [rdictOf, resultsPairs, pyGetDict]
  have had : adictOf [⟨q, some s⟩] q = some s := by
    simp [adictOf, allOptionsPairs, pyGetDict]
  have hids : allIds [⟨q, some k⟩] [⟨q, some s⟩] = [q] := by
    simp [allIds, srcKeys, resKeys, dedupFirst, dedupAux, memB]
  show ((allIds [⟨q, some k⟩] [⟨q, some s⟩]).foldl
      (classifyStep (sdictOf [⟨q, some k⟩]) (rdictOf [⟨q, some s⟩]) (adictOf [⟨q, some s⟩]))
      { matchesN := 0, mismatched_ids := [], missing_from_table1 := [],
        missing_from_table2 := [], comparison_details := [] }).comparison_details = _
  rw [hids]
  simp [classifyStep, hsd, hrd, had, strip_idem, strip_firstCommaEntry]

/-- C6: an identifier whose record exists in a collection is always present
in the corresponding lookup index, even when its comparison field is empty or
absent, and whenever both sides are present with normalized values that
differ — in particular an empty value against a non-empty one — the outcome
is mismatched, never missing_from_table1 or missing_from_table2. -/
theorem compare_tables_empty_value_mismatch (src : List SrcItem) (res : List ResItem) (q : Str) :
    (q ∈ srcKeys src → (sdictOf src q).isSome = true)
    ∧ (q ∈ resKeys res → (rdictOf res q).isSome = true)
    ∧ (∀ a b, sdictOf src q = some a → rdictOf res q = some b →
        pyUpper (strip a) ≠ pyUpper (strip b) →
        q ∈ (compare_tables src res).mismatched_ids
        ∧ q ∉ (compare_tables src res).missing_from_table1
        ∧ q ∉ (compare_tables src res).missing_from_table2
        ∧ ∃ d ∈ (compare_tables src res).comparison_details,
            d.questionid = q ∧ d.matched = false) := by
  refine ⟨fun h => (sdictOf_isSome src q).mpr h, fun h => (rdictOf_isSome res q).mpr h, ?_⟩
  intro a b hsa hrb hne
  obtain ⟨h1, h2, h3, h4, h5⟩ :=
    foldl_classify_spec (sdictOf src) (rdictOf res) (adictOf res) (allIds src res)
      { matchesN := 0, mismatched_ids := [], missing_from_table1 := [],
        missing_from_table2 := [], comparison_details := [] }
  have hct : compare_tables src res
      = (allIds src res).foldl
          (classifyStep (sdictOf src) (rdictOf res) (adictOf res))
          { matchesN := 0, mismatched_ids := [], missing_from_table1 := [],
            missing_from_table2 := [], comparison_details := [] } := rfl
  have hq : q ∈ allIds src res := by
    refine (mem_allIds src res q).mpr (Or.inl ?_)
    exact (sdictOf_isSome src q).mp (by rw [hsa]; rfl)
  have hin : inBothB (sdictOf src) (rdictOf res) q = true := by
    simp [inBothB, hsa, hrb]
  have hnS : normOf (sdictOf src) q = pyUpper (strip a) := by simp [normOf, hsa]
  have hnR : normOf (rdictOf res) q = pyUpper (strip b) := by simp [normOf, hrb]
  have hfne : (normOf (sdictOf src) q == normOf (rdictOf res) q) = false := by
    rw [hnS, hnR]
    exact beq_eq_false_iff_ne.mpr hne
  refine ⟨?_, ?_, ?_, ?_⟩
  · rw [hct, h4]
    simp only [List.nil_append]
    exact List.mem_filter.mpr ⟨hq, by simp [hin, hfne]⟩
  · rw [hct, h2]
    simp only [List.nil_append]
    intro hmem
    have := List.of_mem_filter hmem
    simp [onlyResB, hsa] at this
  · rw [hct, h3]
    simp only [List.nil_append]
    intro hmem
    have := List.of_mem_filter hmem
    simp [onlySrcB, hsa, hrb] at this
  · rw [hct, h1]
    simp only [List.nil_append]
    refine ⟨detailFor (sdictOf src) (rdictOf res) (adictOf res) q, ?_, rfl, ?_⟩
    · exact List.mem_map_of_mem _ (List.mem_filter.mpr ⟨hq, hin⟩)
    · show (normOf (sdictOf src) q == normOf (rdictOf res) q) = false
      exact hfne

/-- C4: the header of the CSV export declares six columns but the synthetic
rows emitted for identifiers missing from one side carry only five cells, so
the status text lands under the Table2_All_Options column; shown at a run
whose results table holds the single identifier q2 absent from the source
table. -/
theorem save_to_s3_synthetic_row_five_cells :
    csvHeader.length = 6
    ∧ save_to_s3_rows (compare_tables [] [⟨("q2").data, some (("A").data)⟩])
        = [csvHeader, missing1Row (("q2").data)]
    ∧ (missing1Row (("q2").data)).length = 5
    ∧ ¬ (missing1Row (("q2").data)).length = 6
    ∧ (missing1Row (("q2").data)).getLast? = some (("Missing from Table 1").data) := by
  refine ⟨by decide, by decide, by decide, by decide, by decide⟩

theorem isPrefOf_append (p t : Str) : isPrefOf p (p ++ t) = true := by
  induction p with
  | nil => rfl
  | cons c p ih => simp [isPrefOf, ih]

theorem lstrip_cons_nospace (c : Char) (hc : pyIsSpace c = false) (s : Str) :
    lstrip (c :: s) = c :: s := by
  simp [lstrip, List.dropWhile_cons, hc]

theorem rstrip_eq_self (s : Str) (c : Char) (t : Str) (h : s.reverse = c :: t)
    (hc : pyIsSpace c = false) : rstrip s = s := by
  rw [rstrip, h, List.dropWhile_cons, if_neg (by simp [hc]), ← h, List.reverse_reverse]

theorem splitGo_nil (sep : Str) (fuel : Nat) (acc : Str) :
    splitGo sep fuel [] acc = [acc.reverse] := by
  cases fuel <;> simp [splitGo]

theorem splitGo_at_sep (c0 : Char) (sep' : Str) (f : Nat) (t acc : Str) :
    splitGo (c0 :: sep') (f + 1) ((c0 :: sep') ++ t) acc
      = acc.reverse :: splitGo (c0 :: sep') f t [] := by
  rw [List.cons_append, splitGo]
  have hpre : isPrefOf (c0 :: sep') (c0 :: (sep' ++ t)) = true := by
    have := isPrefOf_append (c0 :: sep') t
    simpa using this
  rw [if_pos hpre]
  have hdrop : List.drop ((c0 :: sep').length - 1) (sep' ++ t) = t := by
    simp only [List.length_cons, Nat.add_sub_cancel]
    exact List.drop_left sep' t
  rw [hdrop]

theorem splitGo_scan (c0 : Char) (sep' : Str) :
    ∀ (mid : Str), (∀ c ∈ mid, (c0 == c) = false) →
      ∀ (fuel : Nat) (acc tail : Str), mid.length ≤ fuel →
        splitGo (c0 :: sep') fuel (mid ++ tail) acc
          = splitGo (c0 :: sep') (fuel - mid.length) tail (mid.reverse ++ acc) := by
  intro mid
  induction mid with
  | nil => intro _ fuel acc tail _; simp
  | cons c mid ih =>
    intro hmid fuel acc tail h
    have hc : (c0 == c) = false := hmid c (List.mem_cons_self _ _)
    cases fuel with
    | zero => exact absurd h (by simp)
    | succ f =>
      rw [List.cons_append, splitGo]
      have hpre : isPrefOf (c0 :: sep') (c :: (mid ++ tail)) = false := by
        simp [isPrefOf, hc]
      rw [if_neg (by simp [hpre])]
      have hrec := ih (fun d hd => hmid d (List.mem_cons_of_mem _ hd)) f (c :: acc) tail
        (by simpa using Nat.lt_succ_iff.mp (Nat.lt_of_lt_of_le (Nat.lt_succ_self _) h))
      rw [hrec]
      have hacc : mid.reverse ++ (c :: acc) = (c :: mid).reverse ++ acc := by simp
      rw [hacc]
      congr 1
      simp only [List.length_cons]
      omega

theorem allFieldsIn_obj (ms : List (Str × JVal)) :
    ∀ fs : List Str, allFieldsIn (JVal.jobj ms) fs = .ok (fs.all (fun f => objHas ms f)) := by
  intro fs
  induction fs with
  | nil => rfl
  | cons f fs ih =>
    simp only [allFieldsIn, pyInCheck]
    cases h : objHas ms f with
    | false => simp [h, List.all_cons]
    | true => simp [h, List.all_cons, ih]

theorem fenceJson_cons : fenceJson = btk :: (("``json").data) := by decide

theorem fence_cons : fence = btk :: (("``").data) := by decide

theorem fence_triple : fence = [btk, btk, btk] := by decide

theorem pyIsSpace_btk : pyIsSpace btk = false := by decide

theorem fenceJson_len : fenceJson.length = 7 := by decide

theorem fence_len : fence.length = 3 := by decide

theorem fence_rev : fence.reverse = btk :: (("``").data) := by decide

theorem btk_of_ne (c : Char) (h : c ≠ btk) : (btk == c) = false :=
  beq_eq_false_iff_ne.mpr (fun he => h he.symm)

theorem strip_fenced (mid : Str) :
    strip (fenceJson ++ mid ++ fence) = fenceJson ++ mid ++ fence := by
  rw [strip]
  have h1 : lstrip (fenceJson ++ mid ++ fence) = fenceJson ++ mid ++ fence := by
    rw [fenceJson_cons, List.cons_append, List.cons_append]
    exact lstrip_cons_nospace btk pyIsSpace_btk _
  rw [h1]
  refine rstrip_eq_self _ btk ((("``").data) ++ (mid.reverse ++ fenceJson.reverse)) ?_
    pyIsSpace_btk
  rw [List.reverse_append, List.reverse_append, fence_rev, List.cons_append]

theorem splitGo_fj_on_fence (acc : Str) :
    splitGo (btk :: (("``json").data)) 9 fence acc = [acc.reverse ++ fence] := by
  have h : splitGo (btk :: (("``json").data)) 9 fence acc
      = [(btk :: btk :: btk :: acc).reverse] := rfl
  rw [h, fence_triple]
  simp [List.reverse_cons, List.append_assoc]

theorem splitOn_fenceJson (mid : Str) (hmid : ∀ c ∈ mid, c ≠ btk) :
    splitOnStr fenceJson (fenceJson ++ mid ++ fence) = [[], mid ++ fence] := by
  rw [splitOnStr, if_neg (by rw [fenceJson_len]; omega)]
  have hlen : (fenceJson ++ mid ++ fence).length = (mid.length + 9) + 1 := by
    simp [List.length_append, fenceJson_len, fence_len]
    omega
  rw [hlen, List.append_assoc, fenceJson_cons, splitGo_at_sep]
  have hscan := splitGo_scan btk (("``json").data) mid
    (fun c hc => btk_of_ne c (hmid c hc)) (mid.length + 9) [] fence (by omega)
  rw [hscan]
  have h9 : mid.length + 9 - mid.length = 9 := by omega
  rw [h9, List.append_nil, splitGo_fj_on_fence]
  simp [List.reverse_reverse]

theorem splitOn_fence (mid : Str) (hmid : ∀ c ∈ mid, c ≠ btk) :
    splitOnStr fence (mid ++ fence) = [mid, []] := by
  rw [splitOnStr, if_neg (by rw [fence_len]; omega)]
  have hlen : (mid ++ fence).length = mid.length + 3 := by
    simp [List.length_append, fence_len]
  rw [hlen, fence_cons]
  have hscan := splitGo_scan btk (("``").data) mid
    (fun c hc => btk_of_ne c (hmid c hc)) (mid.length + 3) [] (btk :: (("``").data))
    (by omega)
  rw [hscan]
  have h3 : mid.length + 3 - mid.length = 3 := by omega
  rw [h3, List.append_nil]
  have hat := splitGo_at_sep btk (("``").data) 2 [] mid.reverse
  rw [show (btk :: (("``").data)) ++ ([] : Str) = btk :: (("``").data) from by simp] at hat
  rw [hat, splitGo_nil]
  simp [List.reverse_reverse]

theorem cleanResponse_fenced (mid : Str) (hmid : ∀ c ∈ mid, c ≠ btk) :
    cleanResponse (fenceJson ++ mid ++ fence) = strip mid := by
  have h1 := strip_fenced mid
  have h2 : pyStartsWith (fenceJson ++ mid ++ fence) fenceJson = true := by
    rw [pyStartsWith, List.append_assoc]
    exact isPrefOf_append _ _
  have h3 := splitOn_fenceJson mid hmid
  have h4 : pyEndsWith (mid ++ fence) fence = true := by
    rw [pyEndsWith, List.reverse_append]
    exact isPrefOf_append _ _
  have h5 := splitOn_fence mid hmid
  simp only [cleanResponse, h1, h2, if_true, h3, List.getD_cons_succ, List.getD_cons_zero,
    h4, h5]

theorem cleanResponse_plain (raw : Str)
    (h1 : pyStartsWith (strip raw) fenceJson = false)
    (h2 : pyEndsWith (strip raw) fence = false) :
    cleanResponse raw = strip raw := by
  simp only [cleanResponse, h1, h2, Bool.false_eq_true, if_false]
  exact strip_idem raw

/-- C2 (amended): a raw model output consisting of a JSON object carrying
correct_option, explanation and confidence, optionally wrapped in a leading
fenced-json token and a trailing fence token, is cleaned, parsed and
answered with a success result carrying the parsed object verbatim —
provided the wrapped payload contains no backtick, since a fence token
inside the payload breaks the split-based stripping; the specification
example yields status success with chosen option A. -/
theorem validate_question_fenced_success (q : Question) :
    (∀ (mid : Str) (ms : List (Str × JVal)),
      (∀ c ∈ mid, c ≠ btk) →
      parseJson (strip mid) = some (JVal.jobj ms) →
      requiredFields.all (fun f => objHas ms f) = true →
      validate_question (fun _ => .ok (fenceJson ++ mid ++ fence)) q
        = { questionId := q.questionId.getD [], question := some (q.questionText.getD []),
            validation := some (JVal.jobj ms), status := successStr, error := none })
    ∧ (∀ (raw : Str) (ms : List (Str × JVal)),
      pyStartsWith (strip raw) fenceJson = false →
      pyEndsWith (strip raw) fence = false →
      parseJson (strip raw) = some (JVal.jobj ms) →
      requiredFields.all (fun f => objHas ms f) = true →
      validate_question (fun _ => .ok raw) q
        = { questionId := q.questionId.getD [], question := some (q.questionText.getD []),
            validation := some (JVal.jobj ms), status := successStr, error := none })
    ∧ ((validate_question (fun _ => .ok exampleFencedRaw) q).status = successStr
      ∧ storedCorrectOption [] (validate_question (fun _ => .ok exampleFencedRaw) q)
          = some (JVal.jstr (("A").data))) := by
  refine ⟨?_, ?_, rfl, ?_⟩
  · intro mid ms hmid hp hf
    have hclean := cleanResponse_fenced mid hmid
    simp only [validate_question, hclean, hp, allFieldsIn_obj, hf]
  · intro raw ms h1 h2 hp hf
    have hclean := cleanResponse_plain raw h1 h2
    simp only [validate_question, hclean, hp, allFieldsIn_obj, hf]
  · rfl

/-- C2 counterexample: the claim as stated fails when the fenced JSON object
contains a fence token inside a field value — the payload parses as an
object carrying the three required fields, yet the pipeline answers with an
error status because the split-based stripping truncates at the inner
fence. -/
theorem validate_question_fence_payload_cex :
    parseJson (strip fencePayloadMidBad)
      = some (JVal.jobj
          [((("correct_option").data), JVal.jstr (("A").data)),
           ((("explanation").data), JVal.jstr (("x```y").data)),
           ((("confidence").data), JVal.jstr (("HIGH").data))])
    ∧ requiredFields.all (fun f => objHas
        [((("correct_option").data), JVal.jstr (("A").data)),
         ((("explanation").data), JVal.jstr (("x```y").data)),
         ((("confidence").data), JVal.jstr (("HIGH").data))] f) = true
    ∧ fencePayloadRaw = fenceJson ++ fencePayloadMidBad ++ fence
    ∧ (validate_question (fun _ => .ok fencePayloadRaw) exampleQuestion).status = errorStr
    ∧ ¬ (validate_question (fun _ => .ok fencePayloadRaw) exampleQuestion).status
        = successStr := by
  refine ⟨rfl, rfl, rfl, rfl, by decide⟩

/-- C2 witness: the specification example, wrapped payload and all, routed
through the fenced-success theorem at its concrete input. -/
theorem validate_question_fenced_success_witness :
    validate_question (fun _ => .ok (fenceJson ++ fencedPayloadMid ++ fence)) exampleQuestion
      = { questionId := exampleQuestion.questionId.getD [],
          question := some (exampleQuestion.questionText.getD []),
          validation := some (JVal.jobj fencedPayloadObj),
          status := successStr, error := none } :=
  (validate_question_fenced_success exampleQuestion).1 fencedPayloadMid fencedPayloadObj
    (by decide) (by rfl) (by rfl)

theorem storedCorrectOption_of_none (now : Str) (r : VResult) (h : r.validation = none) :
    storedCorrectOption now r = some (JVal.jstr (("UNKNOWN").data)) := by
  simp only [storedCorrectOption, mkStoredItem, toRDict, h]
  rfl

/-- C3: raw output that fails structured parsing yields an error result whose
validation carries the ERROR sentinel and a parse-failure explanation; raw
output parsed to an object missing a required field yields an error result
with no validation payload, the missing-fields message, and a persisted
chosen option defaulting to UNKNOWN; the two failure texts differ, and every
raw output produces a success or error status rather than an exception. -/
theorem validate_question_error_paths (q : Question) (raw : Str) (now : Str) :
    ((validate_question (fun _ => .ok raw) q).status = successStr
      ∨ (validate_question (fun _ => .ok raw) q).status = errorStr)
    ∧ (parseJson (cleanResponse raw) = none →
        (validate_question (fun _ => .ok raw) q).status = errorStr
        ∧ (validate_question (fun _ => .ok raw) q).validation
            = some (JVal.jobj
                [(("correct_option").data, JVal.jstr (("ERROR").data)),
                 (("explanation").data, JVal.jstr parseFailText),
                 (("confidence").data, JVal.jstr (("LOW").data))])
        ∧ storedCorrectOption now (validate_question (fun _ => .ok raw) q)
            = some (JVal.jstr (("ERROR").data)))
    ∧ (∀ ms, parseJson (cleanResponse raw) = some (JVal.jobj ms) →
        requiredFields.all (fun f => objHas ms f) = false →
        (validate_question (fun _ => .ok raw) q).status = errorStr
        ∧ (validate_question (fun _ => .ok raw) q).validation = none
        ∧ (validate_question (fun _ => .ok raw) q).error = some missingFieldsText
        ∧ storedCorrectOption now (validate_question (fun _ => .ok raw) q)
            = some (JVal.jstr (("UNKNOWN").data)))
    ∧ ¬ parseFailText = missingFieldsText := by
  refine ⟨?_, ?_, ?_, by decide⟩
  · cases hp : parseJson (cleanResponse raw) with
    | none => exact Or.inr (by simp only [validate_question, hp])
    | some v =>
      cases hv : allFieldsIn v requiredFields with
      | error e => exact Or.inr (by simp only [validate_question, hp, hv])
      | ok b =>
        cases b with
        | false => exact Or.inr (by simp only [validate_question, hp, hv])
        | true => exact Or.inl (by simp only [validate_question, hp, hv])
  · intro hp
    have hred : validate_question (fun _ => .ok raw) q
        = { questionId := q.questionId.getD [], question := some (q.questionText.getD []),
            validation := some (JVal.jobj
              [(("correct_option").data, JVal.jstr (("ERROR").data)),
               (("explanation").data, JVal.jstr parseFailText),
               (("confidence").data, JVal.jstr (("LOW").data))]),
            status := errorStr, error := none } := by
      simp only [validate_question, hp]
    rw [hred]
    exact ⟨rfl, rfl, rfl⟩
  · intro ms hp hf
    have hred : validate_question (fun _ => .ok raw) q
        = { questionId := q.questionId.getD [], question := none, validation := none,
            status := errorStr, error := some missingFieldsText } := by
      simp only [validate_question, hp, allFieldsIn_obj, hf]
    rw [hred]
    exact ⟨rfl, rfl, rfl, storedCorrectOption_of_none now _ rfl⟩

/-- C3 witness: the prose output exercises the parse-failure branch and the
single-field object exercises the missing-fields branch. -/
theorem validate_question_error_paths_witness :
    ((validate_question (fun _ => .ok proseRaw) exampleQuestion).status = errorStr
      ∧ storedCorrectOption [] (validate_question (fun _ => .ok proseRaw) exampleQuestion)
          = some (JVal.jstr (("ERROR").data)))
    ∧ ((validate_question (fun _ => .ok missingFieldsRaw) exampleQuestion).error
          = some missingFieldsText
      ∧ storedCorrectOption [] (validate_question (fun _ => .ok missingFieldsRaw) exampleQuestion)
          = some (JVal.jstr (("UNKNOWN").data))) := by
  constructor
  · have h := (validate_question_error_paths exampleQuestion proseRaw []).2.1 (by rfl)
    exact ⟨h.1, h.2.2⟩
  · have h := (validate_question_error_paths exampleQuestion missingFieldsRaw []).2.2.1
      [((("correct_option").data), JVal.jstr (("A").data))] (by rfl) (by rfl)
    exact ⟨h.2.2.1, h.2.2.2⟩

/-- C9: the option lines rendered into the prompt carry exactly the letters
among A..F whose text passes the active-option filter, in source order; the
sample record whose ResponseB holds the nan sentinel renders lines for A, C
and D only, keeping their relative order. -/
theorem prompt_option_filtering :
    (∀ q : Question,
      (validAnswers q).map (fun kv => kv.1)
        = optionLetters.filter (fun l => isActiveOption (respOf q l)))
    ∧ (validAnswers exampleQuestion).map (fun kv => kv.1) = ['A', 'C', 'D']
    ∧ answersText exampleQuestion = ("A) S3\nC) EC2\nD) Lambda").data := by
  refine ⟨?_, by decide, by decide⟩
  intro q
  cases hA : isActiveOption (q.responseA.getD []) <;>
    cases hB : isActiveOption (q.responseB.getD []) <;>
      cases hC : isActiveOption (q.responseC.getD []) <;>
        cases hD : isActiveOption (q.responseD.getD []) <;>
          cases hE : isActiveOption (q.responseE.getD []) <;>
            cases hF : isActiveOption (q.responseF.getD []) <;>
              simp [validAnswers, answersList, optionLetters, respOf, List.filter_cons,
                hA, hB, hC, hD, hE, hF]

theorem processQuestions_spec (invoke : Str → Except Str Str)
    (put : List (Str × JVal) → Except Str Unit) (now : Str) (questions : List Question) :
    processQuestions invoke put now questions
      = (questions.map (fun q => validate_question invoke q),
         questions.map (fun q =>
           { questionId := (validate_question invoke q).questionId,
             stored := store_validation_result put now (toRDict (validate_question invoke q)) })) := by
  have key : ∀ (l : List Question) (acc : List VResult × List StorageEntry),
      l.foldl
        (fun acc q =>
          let r := validate_question invoke q
          let ok := store_validation_result put now (toRDict r)
          (acc.1 ++ [r], acc.2 ++ [{ questionId := r.questionId, stored := ok }])) acc
        = (acc.1 ++ l.map (fun q => validate_question invoke q),
           acc.2 ++ l.map (fun q =>
             { questionId := (validate_question invoke q).questionId,
               stored := store_validation_result put now (toRDict (validate_question invoke q)) })) := by
    intro l
    induction l with
    | nil => intro acc; simp
    | cons q l ih =>
      intro acc
      simp only [List.foldl_cons, ih, List.map_cons]
      simp [List.append_assoc]
  simpa [processQuestions] using key questions ([], [])

/-- C7: the batch driver yields exactly one validation result and exactly
one storage entry per question, with matching identifiers in order, whatever
the model transport and the per-record table writes return. -/
theorem lambda_handler_batch_counts (invoke : Str → Except Str Str)
    (put : List (Str × JVal) → Except Str Unit) (now : Str) (questions : List Question) :
    (processQuestions invoke put now questions).1.length = questions.length
    ∧ (processQuestions invoke put now questions).2.length = questions.length
    ∧ (processQuestions invoke put now questions).2.map (fun e => e.questionId)
        = (processQuestions invoke put now questions).1.map (fun r => r.questionId) := by
  rw [processQuestions_spec]
  refine ⟨by simp, by simp, ?_⟩
  simp [List.map_map]

/-- C10: whenever a record is written for a validation result it carries the
seven attributes exactly, with CorrectOption defaulting to UNKNOWN,
Explanation to the empty string, Confidence to LOW and ValidationStatus to
error when the corresponding data is absent; store_validation_result never
raises, answering true exactly when an item was built and written. -/
theorem store_validation_result_item_shape
    (put : List (Str × JVal) → Except Str Unit) (now : Str) (r : RDict) :
    (∀ qid, r.questionId = some qid →
      (r.validation = none ∨ ∃ ms, r.validation = some (JVal.jobj ms)) →
      ∃ item, mkStoredItem now r = .ok item
        ∧ item.map (fun p => p.1) = storedKeys
        ∧ (r.validation = none →
            pyGetDict item (("CorrectOption").data) = some (JVal.jstr (("UNKNOWN").data))
            ∧ pyGetDict item (("Explanation").data) = some (JVal.jstr [])
            ∧ pyGetDict item (("Confidence").data) = some (JVal.jstr (("LOW").data)))
        ∧ (r.status = none →
            pyGetDict item (("ValidationStatus").data) = some (JVal.jstr (("error").data))))
    ∧ (store_validation_result put now r = true
        ↔ ∃ item, mkStoredItem now r = .ok item ∧ put item = .ok ()) := by
  constructor
  · intro qid hqid hval
    rcases hval with hv | ⟨ms, hv⟩
    · have hmk : mkStoredItem now r = .ok
          [(("QuestionId").data, JVal.jstr qid),
           (("CorrectOption").data, JVal.jstr (("UNKNOWN").data)),
           (("Explanation").data, JVal.jstr []),
           (("Confidence").data, JVal.jstr (("LOW").data)),
           (("ValidationStatus").data, JVal.jstr (r.status.getD (("error").data))),
           (("ProcessedAt").data, JVal.jstr now),
           (("QuestionText").data, JVal.jstr (r.question.getD []))] := by
        simp only [mkStoredItem, hqid, hv]
        rfl
      refine ⟨_, hmk, rfl, fun _ => ⟨rfl, rfl, rfl⟩, fun hs => ?_⟩
      rw [hs]
      rfl
    · have hmk : mkStoredItem now r = .ok
          [(("QuestionId").data, JVal.jstr qid),
           (("CorrectOption").data, objGetD ms (("correct_option").data)
              (JVal.jstr (("UNKNOWN").data))),
           (("Explanation").data, objGetD ms (("explanation").data) (JVal.jstr [])),
           (("Confidence").data, objGetD ms (("confidence").data)
              (JVal.jstr (("LOW").data))),
           (("ValidationStatus").data, JVal.jstr (r.status.getD (("error").data))),
           (("ProcessedAt").data, JVal.jstr now),
           (("QuestionText").data, JVal.jstr (r.question.getD []))] := by
        simp only [mkStoredItem, hqid, hv]
        rfl
      refine ⟨_, hmk, rfl, fun hcontra => ?_, fun hs => ?_⟩
      · rw [hcontra] at hv
        cases hv
      · rw [hs]
        rfl
  · cases hmk : mkStoredItem now r with
    | error e =>
      constructor
      · intro hs
        rw [store_validation_result, hmk] at hs
        cases hs
      · rintro ⟨item, heq, _⟩
        cases heq
    | ok item =>
      cases hput : put item with
      | ok u =>
        constructor
        · intro _
          refine ⟨item, rfl, ?_⟩
          cases u
          exact hput
        · intro _
          rw [store_validation_result, hmk]
          simp [hput]
      | error e =>
        constructor
        · intro hs
          rw [store_validation_result, hmk] at hs
          simp [hput] at hs
        · rintro ⟨item2, heq, hp⟩
          cases heq
          rw [hput] at hp
          cases hp

/-- C10 witness: a result dictionary with no validation payload and no
status is stored with the seven attributes and the UNKNOWN, LOW and error
defaults, and a failing table write is answered with false. -/
theorem store_validation_result_item_shape_witness :
    (∃ item, mkStoredItem [] rdictBare = .ok item
      ∧ item.map (fun p => p.1) = storedKeys
      ∧ (rdictBare.validation = none →
          pyGetDict item (("CorrectOption").data) = some (JVal.jstr (("UNKNOWN").data))
          ∧ pyGetDict item (("Explanation").data) = some (JVal.jstr [])
          ∧ pyGetDict item (("Confidence").data) = some (JVal.jstr (("LOW").data)))
      ∧ (rdictBare.status = none →
          pyGetDict item (("ValidationStatus").data) = some (JVal.jstr (("error").data))))
    ∧ store_validation_result putFail [] rdictBare = false := by
  constructor
  · exact (store_validation_result_item_shape putFail [] rdictBare).1
      (("q1").data) rfl (Or.inl rfl)
  · rfl

/-- C8 counterexample: the CSV-ingestion entry point answers an invocation
whose event lacks the required Records input with statusCode 500, not 400,
and its missing-configuration check raises at module load instead of
returning any response. -/
theorem csv_handler_missing_input_cex :
    (s3_csv_handler none (fun _ => .ok (0, 0))).statusCode = 500
    ∧ ¬ (s3_csv_handler none (fun _ => .ok (0, 0))).statusCode = 400
    ∧ s3_module_check none (some (("t").data))
        = .error (("S3_BUCKET_NAME environment variable is not set").data) := by
  refine ⟨rfl, by decide, rfl⟩

/-- C8 (amended): the reconciliation and Bedrock-call entry points answer a
missing required configuration value or input with a 400 response carrying a
message and an error string and independent of every collaborator, and the
reconciliation handler answers 500 only when its configuration is truthy and
the scan or the save fails with a non-ValueError exception; the
CSV-ingestion entry point, by contrast, raises at module load on missing
configuration and answers a missing Records input with 500. -/
theorem entrypoint_status_codes :
    (∀ (cfg : Config3) (runScan : Unit → Except PyErr (List SrcItem × List ResItem))
        (runSave : CompareOut → Except PyErr Str),
      (truthy cfg.sourceTable && truthy cfg.resultsTable && truthy cfg.outputBucket) = false →
      comparison_handler cfg runScan runSave
        = { statusCode := 400, message := ("Configuration error").data,
            error := some (("Required environment variables are not set").data),
            results := none, outputFile := none })
    ∧ (∀ runClaude : Str → Except Str Str,
        (call_bedrock_handler none runClaude).statusCode = 400
        ∧ (call_bedrock_handler none runClaude).message = ("Invalid input").data
        ∧ (call_bedrock_handler none runClaude).error.isSome = true)
    ∧ (∀ (cfg : Config3) (runScan : Unit → Except PyErr (List SrcItem × List ResItem))
        (runSave : CompareOut → Except PyErr Str),
      (comparison_handler cfg runScan runSave).statusCode = 500 →
      (truthy cfg.sourceTable && truthy cfg.resultsTable && truthy cfg.outputBucket) = true
      ∧ ((∃ m, runScan () = .error (.other m))
         ∨ ∃ src res m, runScan () = .ok (src, res)
             ∧ runSave (compare_tables src res) = .error (.other m))) := by
  refine ⟨?_, fun runClaude => ⟨rfl, rfl, rfl⟩, ?_⟩
  · intro cfg runScan runSave h
    simp [comparison_handler, h]
  · intro cfg runScan runSave h
    by_cases hc : (truthy cfg.sourceTable && truthy cfg.resultsTable
        && truthy cfg.outputBucket) = true
    · refine ⟨hc, ?_⟩
      cases hscan : runScan () with
      | error pe =>
        cases pe with
        | valueError m =>
          rw [comparison_handler, if_neg (by simp [hc]), hscan] at h
          simp at h
        | other m => exact Or.inl ⟨m, rfl⟩
      | ok pair =>
        obtain ⟨src, res⟩ := pair
        cases hsave : runSave (compare_tables src res) with
        | error pe =>
          cases pe with
          | valueError m =>
            rw [comparison_handler, if_neg (by simp [hc]), hscan] at h
            simp [hsave] at h
          | other m => exact Or.inr ⟨src, res, m, rfl, hsave⟩
        | ok file =>
          rw [comparison_handler, if_neg (by simp [hc]), hscan] at h
          simp [hsave] at h
    · have hc2 : (truthy cfg.sourceTable && truthy cfg.resultsTable
          && truthy cfg.outputBucket) = false := Bool.eq_false_iff.mpr hc
      rw [comparison_handler, if_pos (by simp [hc2])] at h
      cases h

/-- C8 witness: the empty configuration is answered with the 400 record
whatever the collaborators do, and a non-ValueError scan failure under a
full configuration is classified by the 500 clause. -/
theorem entrypoint_status_codes_witness :
    comparison_handler cfgNone scanEmpty saveOk
      = { statusCode := 400, message := ("Configuration error").data,
          error := some (("Required environment variables are not set").data),
          results := none, outputFile := none }
    ∧ ((truthy cfgFull.sourceTable && truthy cfgFull.resultsTable
          && truthy cfgFull.outputBucket) = true
       ∧ ((∃ m, scanBoom () = .error (.other m))
          ∨ ∃ src res m, scanBoom () = .ok (src, res)
              ∧ saveOk (compare_tables src res) = .error (.other m))) := by
  constructor
  · exact (entrypoint_status_codes).1 cfgNone scanEmpty saveOk (by decide)
  · exact (entrypoint_status_codes).2.2 cfgFull scanBoom saveOk (by rfl)

/-- C6 witness: a record with an absent Key facing the candidate value A is
classified as mismatched and appears in no missing list. -/
theorem compare_tables_empty_value_mismatch_witness :
    ("q1").data ∈ (compare_tables [⟨("q1").data, none⟩]
        [⟨("q1").data, some (("A").data)⟩]).mismatched_ids
    ∧ ("q1").data ∉ (compare_tables [⟨("q1").data, none⟩]
        [⟨("q1").data, some (("A").data)⟩]).missing_from_table1
    ∧ ("q1").data ∉ (compare_tables [⟨("q1").data, none⟩]
        [⟨("q1").data, some (("A").data)⟩]).missing_from_table2 := by
  have h := (compare_tables_empty_value_mismatch [⟨("q1").data, none⟩]
      [⟨("q1").data, some (("A").data)⟩] (("q1").data)).2.2
      [] (("A").data) (by rfl) (by rfl) (by decide)
  exact ⟨h.1, h.2.1, h.2.2.1⟩
